import Mathlib

/-!
Verification development for the gRPC-Web WSGI bridge (`sonora/wsgi.py`).

The source file under verification is `src/sonora/wsgi.py`.  Its sibling module
`sonora.protocol` (frame codec, timeout parsing, metadata encoding) is not part
of the sources; those operations are modelled from the specification and are
marked `Modelled from the spec:` in their doc comments.

Bytes are modelled as `List Nat` (each entry < 256 where it matters), Python
exceptions as explicit `Except`/sum results, and the monotonic clock as an
explicit function from pull index to current time (nanoseconds).
-/

namespace Sonora

/-- Decidable equality for `Except`, needed to evaluate results by `decide`. -/
instance {ε α : Type} [DecidableEq ε] [DecidableEq α] : DecidableEq (Except ε α) := fun a b =>
  match a, b with
  | .ok x, .ok y =>
    if h : x = y then isTrue (by rw [h]) else isFalse (by intro hc; cases hc; exact h rfl)
  | .error x, .error y =>
    if h : x = y then isTrue (by rw [h]) else isFalse (by intro hc; cases hc; exact h rfl)
  | .ok _, .error _ => isFalse (by intro hc; cases hc)
  | .error _, .ok _ => isFalse (by intro hc; cases hc)

/-- ASCII lowercasing of one character (`str.lower` on the header-token-safe
ASCII keys this layer deals in). -/
def pyLowerChar (c : Char) : Char :=
  if 65 ≤ c.toNat ∧ c.toNat ≤ 90 then Char.ofNat (c.toNat + 32) else c

/-- `str.lower`, character by character. -/
def pyLower (s : String) : String :=
  String.mk (s.data.map pyLowerChar)

/-- `str.startswith(p)`. -/
def pyStartsWith (s p : String) : Bool :=
  decide (s.data.take p.data.length = p.data)

/-- `str.endswith(p)`. -/
def pyEndsWith (s p : String) : Bool :=
  decide (s.data.reverse.take p.data.length = p.data.reverse)

/-- `s[n:]` on a string. -/
def pyDrop (s : String) (n : Nat) : String :=
  String.mk (s.data.drop n)

/-- `str.replace("_", "-")`: the single-character replace used on header keys. -/
def pyReplaceUnderscore (s : String) : String :=
  String.mk (s.data.map (fun c => if c.toNat = 95 then Char.ofNat 45 else c))

/-- UTF-8 encoding of a single character (the standard 1-4 byte encoding). -/
def utf8Char (c : Char) : List Nat :=
  let n := c.toNat
  if n < 128 then [n]
  else if n < 2048 then [192 + n / 64, 128 + n % 64]
  else if n < 65536 then [224 + n / 4096, 128 + (n / 64) % 64, 128 + n % 64]
  else [240 + n / 262144, 128 + (n / 4096) % 64, 128 + (n / 64) % 64, 128 + n % 64]

/-- The UTF-8 bytes of a string (Python `str.encode("utf8")`). -/
def strBytes (s : String) : List Nat :=
  (s.data.map utf8Char).flatten

/-- 4-byte big-endian encoding of a length. -/
def be4 (n : Nat) : List Nat :=
  [n / 16777216 % 256, n / 65536 % 256, n / 256 % 256, n % 256]

/-- Modelled from the spec: `wrap_message` lives in the sibling `sonora.protocol`
module, which is absent from the sources.  Spec section 3 / 4.1: a Frame is one
control byte (bit 0 = "is trailer block", bit 7 = "compressed") followed by a
4-byte big-endian unsigned length and the payload of that many bytes. -/
def wrap_message (trailer compressed : Bool) (payload : List Nat) : List Nat :=
  ((if compressed then 128 else 0) + (if trailer then 1 else 0)) :: (be4 payload.length ++ payload)

/-- Modelled from the spec: `pack_trailers` lives in `sonora.protocol`, absent
from the sources.  Spec section 4.1: renders ASCII `key: value` lines, each
terminated by CRLF, in input order. -/
def pack_trailers (trailers : List (String × String)) : List Nat :=
  (trailers.map fun kv => strBytes (kv.1 ++ ": " ++ kv.2 ++ "\x0d\x0a")).flatten

/-- The base64 alphabet character for a 6-bit value. -/
def b64Char (n : Nat) : Char :=
  if n < 26 then Char.ofNat (65 + n)
  else if n < 52 then Char.ofNat (97 + (n - 26))
  else if n < 62 then Char.ofNat (48 + (n - 52))
  else if n = 62 then Char.ofNat 43
  else Char.ofNat 47

/-- Base64-encode 3-byte groups, padding the final partial group with `=`. -/
def b64encodeGroups : List Nat → List Char
  | [] => []
  | [a] => [b64Char (a / 4), b64Char (a % 4 * 16), Char.ofNat 61, Char.ofNat 61]
  | [a, b] => [b64Char (a / 4), b64Char (a % 4 * 16 + b / 16), b64Char (b % 16 * 4), Char.ofNat 61]
  | a :: b :: c :: rest =>
    [b64Char (a / 4), b64Char (a % 4 * 16 + b / 16), b64Char (b % 16 * 4 + c / 64),
     b64Char (c % 64)] ++ b64encodeGroups rest

/-- Standard base64 encoding of a byte string (`base64.b64encode`). -/
def b64encode (bs : List Nat) : String :=
  String.mk (b64encodeGroups bs)

/-- The 6-bit value of a base64 alphabet character, `none` outside the alphabet. -/
def b64Val (c : Char) : Option Nat :=
  if 65 ≤ c.toNat ∧ c.toNat ≤ 90 then some (c.toNat - 65)
  else if 97 ≤ c.toNat ∧ c.toNat ≤ 122 then some (c.toNat - 97 + 26)
  else if 48 ≤ c.toNat ∧ c.toNat ≤ 57 then some (c.toNat - 48 + 52)
  else if c.toNat = 43 then some 62
  else if c.toNat = 47 then some 63
  else none

/-- Decode base64 quads; `=` padding is accepted only at the very end. -/
def b64decodeQuads : List Char → Except Unit (List Nat)
  | [] => .ok []
  | a :: b :: c :: d :: rest =>
    (match b64Val a, b64Val b with
     | some va, some vb =>
       if c.toNat = 61 then
         if d.toNat = 61 ∧ rest = [] then .ok [va * 4 + vb / 16] else .error ()
       else
         (match b64Val c with
          | some vc =>
            if d.toNat = 61 then
              if rest = [] then .ok [va * 4 + vb / 16, vb % 16 * 16 + vc / 4] else .error ()
            else
              (match b64Val d with
               | some vd =>
                 (b64decodeQuads rest).map
                   (fun tail =>
                     (va * 4 + vb / 16) :: (vb % 16 * 16 + vc / 4) :: (vc % 4 * 64 + vd) :: tail)
               | none => .error ())
          | none => .error ())
     | _, _ => .error ())
  | _ => .error ()

/-- `base64.b64decode` with default arguments: characters outside the alphabet
and padding are discarded first, then the remaining text must form whole quads. -/
def b64decode (s : String) : Except Unit (List Nat) :=
  let kept := s.data.filter (fun c => (b64Val c).isSome || c.toNat = 61)
  if kept.length % 4 = 0 then b64decodeQuads kept else .error ()

/-- Uppercase hex digit character for a value below 16. -/
def hexUpper (n : Nat) : Char :=
  if n < 10 then Char.ofNat (48 + n) else Char.ofNat (55 + n)

/-- One byte of `urllib.parse.quote` output: bytes in the unreserved set
(ALPHA / DIGIT / `_` `.` `-` `~` and the default-safe `/`) pass through,
everything else becomes a percent escape with uppercase hex. -/
def quoteByte (b : Nat) : List Char :=
  if (65 ≤ b ∧ b ≤ 90) ∨ (97 ≤ b ∧ b ≤ 122) ∨ (48 ≤ b ∧ b ≤ 57)
     ∨ b = 95 ∨ b = 46 ∨ b = 45 ∨ b = 126 ∨ b = 47
  then [Char.ofNat b]
  else [Char.ofNat 37, hexUpper (b / 16), hexUpper (b % 16)]

/-- `urllib.parse.quote`: percent-encode the UTF-8 bytes of a string. -/
def quote (s : String) : String :=
  String.mk ((strBytes s).map quoteByte).flatten

/-- The number of nanoseconds denoted by a one-character timeout unit
(hours / minutes / seconds / milliseconds / microseconds / nanoseconds). -/
def timeoutUnitNanos (c : Char) : Except Unit Nat :=
  if c.toNat = 72 then .ok 3600000000000
  else if c.toNat = 77 then .ok 60000000000
  else if c.toNat = 83 then .ok 1000000000
  else if c.toNat = 109 then .ok 1000000
  else if c.toNat = 117 then .ok 1000
  else if c.toNat = 110 then .ok 1
  else .error ()

/-- The numeric value of a string of decimal digit characters. -/
def digitsToNat (cs : List Char) : Nat :=
  cs.foldl (fun acc c => acc * 10 + (c.toNat - 48)) 0

/-- Modelled from the spec: `parse_timeout` lives in `sonora.protocol`, absent
from the sources.  Spec section 4.1: parses a magnitude digit string plus a
one-character unit into a duration (modelled in nanoseconds); fails with a
ValueError-equivalent on malformed input (non-digit magnitude, unknown unit,
empty string). -/
def parse_timeout (s : String) : Except Unit Nat :=
  match s.data.reverse with
  | [] => .error ()
  | u :: revMag =>
    let mag := revMag.reverse
    if mag.isEmpty ∨ ¬ mag.all Char.isDigit then .error ()
    else (timeoutUnitNanos u).map (fun f => digitsToNat mag * f)

/-- Modelled from the spec: `encode_headers` lives in `sonora.protocol`, absent
from the sources.  Spec section 4.1: lowercases keys, base64-encodes values whose
key ends in the binary-metadata suffix `-bin`, leaves others as UTF-8 text. -/
def encode_headers (metadata : List (String × String)) : List (String × String) :=
  metadata.map fun kv =>
    (pyLower kv.1, if pyEndsWith kv.1 "-bin" then b64encode (strBytes kv.2) else kv.2)

/-- The gRPC status codes (`grpc.StatusCode`). -/
inductive StatusCode where
  | ok
  | cancelled
  | unknown
  | invalid_argument
  | deadline_exceeded
  | not_found
  | already_exists
  | permission_denied
  | resource_exhausted
  | failed_precondition
  | aborted
  | out_of_range
  | unimplemented
  | internal
  | unavailable
  | data_loss
  | unauthenticated
  deriving DecidableEq

/-- The numeric wire value of a status code (`code.value[0]` in grpc). -/
def StatusCode.value : StatusCode → Nat
  | .ok => 0
  | .cancelled => 1
  | .unknown => 2
  | .invalid_argument => 3
  | .deadline_exceeded => 4
  | .not_found => 5
  | .already_exists => 6
  | .permission_denied => 7
  | .resource_exhausted => 8
  | .failed_precondition => 9
  | .aborted => 10
  | .out_of_range => 11
  | .unimplemented => 12
  | .internal => 13
  | .unavailable => 14
  | .data_loss => 15
  | .unauthenticated => 16

/-- An inbound metadata value: text, or raw bytes for `-bin` keys. -/
inductive MetaValue where
  | text (s : String)
  | bin (bs : List Nat)
  deriving DecidableEq

/-- Python exceptions that matter in this development. -/
inductive PyError where
  | valueError
  | unboundLocal
  | runtimeError
  | typeError
  | binasciiError
  deriving DecidableEq

/-- The per-call context (`ServicerContext.__init__` in the source): status code
(default OK), details (default absent), the parsed timeout, the absolute deadline
(`time.monotonic() + timeout`, modelled in nanoseconds), inbound metadata, and
the write-once outbound metadata fields. -/
structure ServicerContext where
  code : StatusCode
  details : Option String
  timeout : Option Nat
  deadline : Option Nat
  invocation_metadata : List (String × MetaValue)
  initial_metadata : Option (List (String × String))
  trailing_metadata : Option (List (String × String))
  deriving DecidableEq

/-- `ServicerContext.__init__`: given the parsed timeout, the extracted metadata
and the current monotonic time, build the initial context state. -/
def ServicerContext.init (timeout : Option Nat) (metadata : List (String × MetaValue))
    (now : Nat) : ServicerContext :=
  { code := .ok
    details := none
    timeout := timeout
    deadline := timeout.map (fun t => now + t)
    invocation_metadata := metadata
    initial_metadata := none
    trailing_metadata := none }

/-- `set_code`. -/
def ServicerContext.set_code (ctx : ServicerContext) (c : StatusCode) : ServicerContext :=
  { ctx with code := c }

/-- `set_details`. -/
def ServicerContext.set_details (ctx : ServicerContext) (d : String) : ServicerContext :=
  { ctx with details := some d }

/-- The two ways `abort` / `abort_with_status` leave the handler: both raise. -/
inductive AbortRaise where
  | valueError
  | rpcError
  deriving DecidableEq

/-- `ServicerContext.abort`: `raise ValueError()` for the OK code before any
mutation; otherwise `set_code`, `set_details`, then `raise grpc.RpcError()`.
The result is the context state plus the exception raised — the Python method
never returns normally. -/
def ServicerContext.abort (ctx : ServicerContext) (code : StatusCode) (details : String) :
    ServicerContext × AbortRaise :=
  if code = .ok then (ctx, .valueError)
  else ((ctx.set_code code).set_details details, .rpcError)

/-- `ServicerContext.abort_with_status`: compares the argument against the OK
code, then `set_code(status)` (details untouched) and `raise grpc.RpcError()`. -/
def ServicerContext.abort_with_status (ctx : ServicerContext) (status : StatusCode) :
    ServicerContext × AbortRaise :=
  if status = .ok then (ctx, .valueError)
  else (ctx.set_code status, .rpcError)

/-- `time_remaining`: `max(self._deadline - time.monotonic(), 0)` when a deadline
is set (`Nat` subtraction already floors at zero), `None` otherwise. -/
def ServicerContext.time_remaining (ctx : ServicerContext) (now : Nat) : Option Nat :=
  ctx.deadline.map (fun d => d - now)

/-- `_grpc_status_to_wsgi_status`: the fixed status-code-to-HTTP-status table. -/
def _grpc_status_to_wsgi_status (code : Option StatusCode) : String :=
  if code = some .ok then "200 OK"
  else if code = none then "200 OK"
  else if code = some .unknown then "500 Internal Server Error"
  else if code = some .internal then "500 Internal Server Error"
  else if code = some .unavailable then "503 Service Unavailable"
  else if code = some .invalid_argument then "400 Bad Request"
  else if code = some .unimplemented then "404 Not Found"
  else if code = some .permission_denied then "403 Forbidden"
  else "500 Internal Server Error"

/-- The fixed response headers built in `_do_grpc_request` before dispatching to
the unary or streaming response producer. -/
def baseHeaders : List (String × String) :=
  [("Content-Type", "application/grpc-web+proto"),
   ("Access-Control-Allow-Origin", "*"),
   ("Access-Control-Expose-Headers", "*")]

/-- Python truthiness of an optional list (`None` and `[]` are falsy). -/
def pyTruthyOptList (m : Option (List α)) : Bool :=
  match m with
  | some (_ :: _) => true
  | _ => false

/-- `message_data` in `_do_unary_response`: `if resp:` distinguishes `None`
(the handler aborted, so `resp` was never assigned) from a returned message —
protobuf message objects define no truthiness override, so any returned message
is truthy.  In the truthy branch the serialized value is wrapped as a
non-trailer Frame; otherwise the message segment is empty. -/
def unaryMessageData {α : Type} (ser : α → List Nat) (resp : Option α) : List Nat :=
  match resp with
  | some m => wrap_message false false (ser m)
  | none => []

/-- `trailer_data` in `_do_unary_response`: a trailer Frame packed from the
encoded trailing metadata when `context._trailing_metadata` is truthy (set and
nonempty), else the empty byte string. -/
def unaryTrailerData (ctx : ServicerContext) : List Nat :=
  match ctx.trailing_metadata with
  | some (kv :: rest) => wrap_message true false (pack_trailers (encode_headers (kv :: rest)))
  | _ => []

/-- The result of the unary response producer: the WSGI status line, the header
list passed to `start_response`, and the body chunks yielded in order. -/
structure UnaryResult where
  status : String
  headers : List (String × String)
  bodyChunks : List (List Nat)
  deriving DecidableEq

/-- `_do_unary_response`: build the message segment and trailer segment, compute
`content-length` as their exact total byte length, append `grpc-status`,
optionally `grpc-message` (percent-encoded, when details are truthy) and the
encoded initial metadata (when truthy), then emit the two body chunks. -/
def _do_unary_response {α : Type} (ser : α → List Nat) (ctx : ServicerContext)
    (resp : Option α) : UnaryResult :=
  let message_data := unaryMessageData ser resp
  let trailer_data := unaryTrailerData ctx
  let content_length := message_data.length + trailer_data.length
  let headers := baseHeaders
    ++ [("content-length", toString content_length)]
    ++ [("grpc-status", toString ctx.code.value)]
    ++ (match ctx.details with
        | some d => if d = "" then [] else [("grpc-message", quote d)]
        | none => [])
    ++ (match ctx.initial_metadata with
        | some (kv :: rest) => encode_headers (kv :: rest)
        | _ => [])
  { status := _grpc_status_to_wsgi_status (some ctx.code)
    headers := headers
    bodyChunks := [message_data, trailer_data] }

/-- How the handler's response iterator ended, as observed by
`_do_streaming_response`: normal exhaustion (`StopIteration`), the call-aborted
signal (`grpc.RpcError`, which the source catches), or some other exception. -/
inductive GenEnd where
  | stopIteration
  | rpcError
  | raised (e : PyError)
  deriving DecidableEq

/-- The result of the streaming response producer once headers are out: status
line, headers, the body chunks actually yielded, and the exception (if any) that
escaped while producing the body after those chunks. -/
structure StreamingResult where
  status : String
  headers : List (String × String)
  bodyChunks : List (List Nat)
  bodyError : Option PyError
  deriving DecidableEq

/-- The headers sent by `_do_streaming_response`: the base headers plus the
encoded initial metadata when `context._initial_metadata` is truthy. -/
def streamHeaders (ctx : ServicerContext) : List (String × String) :=
  baseHeaders
  ++ (match ctx.initial_metadata with
      | some (kv :: rest) => encode_headers (kv :: rest)
      | _ => [])

/-- The trailer lines built at the end of `_do_streaming_response`:
`grpc-status`, then `grpc-message` (percent-encoded) when details are truthy,
then the encoded trailing metadata when truthy. -/
def streamTrailerLines (ctx : ServicerContext) : List (String × String) :=
  [("grpc-status", toString ctx.code.value)]
  ++ (match ctx.details with
      | some d => if d = "" then [] else [("grpc-message", quote d)]
      | none => [])
  ++ (match ctx.trailing_metadata with
      | some (kv :: rest) => encode_headers (kv :: rest)
      | _ => [])

/-- `_do_streaming_response`.  Parameters: `yields` are the values the response
iterator produced before it ended, `gend` is how it ended, `ctxH` is the context
state when the headers are emitted (right after the first pull), `ctxT` the
state when the trailer is built (the two coincide unless the first pull mutated
the context).  Faithful to the source's control flow:
  * the first pull is eager; a `StopIteration` there (empty iterator that
    completed normally) is raised inside this generator and becomes a
    `RuntimeError` (PEP 479) before any header is sent;
  * a `grpc.RpcError` on the first pull is caught, headers are sent, and the
    source then evaluates `response_serializer(first_message)` with
    `first_message` never assigned — an `UnboundLocalError` escapes mid-body;
  * otherwise each value is emitted as a message Frame; the `for` loop either
    exhausts the iterator or catches a `grpc.RpcError`, and in both cases one
    trailer Frame follows; any other exception mid-loop escapes after the
    already-emitted frames. -/
def _do_streaming_response {α : Type} (ser : α → List Nat) (yields : List α)
    (gend : GenEnd) (ctxH ctxT : ServicerContext) : Except PyError StreamingResult :=
  match yields with
  | [] =>
    match gend with
    | .stopIteration => .error .runtimeError
    | .raised e => .error e
    | .rpcError =>
      .ok { status := _grpc_status_to_wsgi_status (some ctxH.code)
            headers := streamHeaders ctxH
            bodyChunks := []
            bodyError := some .unboundLocal }
  | v :: rest =>
    let msgFrames := (v :: rest).map (fun m => wrap_message false false (ser m))
    match gend with
    | .raised e =>
      .ok { status := _grpc_status_to_wsgi_status (some ctxH.code)
            headers := streamHeaders ctxH
            bodyChunks := msgFrames
            bodyError := some e }
    | _ =>
      .ok { status := _grpc_status_to_wsgi_status (some ctxH.code)
            headers := streamHeaders ctxH
            bodyChunks := msgFrames ++ [wrap_message true false (pack_trailers (streamTrailerLines ctxT))]
            bodyError := none }

/-- How `_timeout_generator` stopped pulling from the inner iterator. -/
inductive TimeoutOutcome where
  | deadline
  | exhausted
  | noDeadline
  deriving DecidableEq

/-- The loop of `_timeout_generator`: before the `i`-th pull it evaluates
`context.time_remaining() > 0` (the monotonic clock at the `i`-th check is
`nowAt i`).  If the remaining time is positive it pulls the next value; when the
inner iterator is exhausted, `next(gen)` raises `StopIteration` inside the
generator (`exhausted`, a `RuntimeError` by PEP 479).  If the remaining time has
reached zero it stops (`deadline`).  With no deadline set `None > 0` would be a
`TypeError` (`noDeadline`) — unreachable, since the source only wraps the
iterator when `time_remaining()` is not `None`. -/
def _timeout_generator_go {α : Type} (ctx : ServicerContext) (nowAt : Nat → Nat) :
    Nat → List α → List α × TimeoutOutcome
  | i, [] =>
    (match ctx.time_remaining (nowAt i) with
     | none => ([], .noDeadline)
     | some r => if r > 0 then ([], .exhausted) else ([], .deadline))
  | i, v :: rest =>
    (match ctx.time_remaining (nowAt i) with
     | none => ([], .noDeadline)
     | some r =>
       if r > 0 then
         let p := _timeout_generator_go ctx nowAt (i + 1) rest
         (v :: p.1, p.2)
       else ([], .deadline))

/-- `_timeout_generator`: on deadline expiry the context's code becomes
DEADLINE_EXCEEDED with details "request timed out at the server" and a
`grpc.RpcError` is raised (outcome `deadline`); otherwise the context is left
untouched. -/
def _timeout_generator {α : Type} (ctx : ServicerContext) (nowAt : Nat → Nat)
    (vals : List α) : List α × ServicerContext × TimeoutOutcome :=
  let p := _timeout_generator_go ctx nowAt 0 vals
  match p.2 with
  | .deadline =>
    (p.1,
     { ctx with code := .deadline_exceeded, details := some "request timed out at the server" },
     .deadline)
  | o => (p.1, ctx, o)

/-- The streaming path of `_do_grpc_request` when a deadline is set: the handler
iterator is wrapped in `_timeout_generator` and fed to
`_do_streaming_response`.  A `deadline` outcome reaches the response producer as
the caught `grpc.RpcError`; `exhausted` is the PEP 479 `RuntimeError`;
`noDeadline` the `TypeError`.  When the very first pull already raised, the
context was mutated before the headers were emitted. -/
def _do_streaming_with_timeout {α : Type} (ser : α → List Nat) (ctx : ServicerContext)
    (nowAt : Nat → Nat) (vals : List α) : Except PyError StreamingResult :=
  let r := _timeout_generator ctx nowAt vals
  let gend := match r.2.2 with
    | .deadline => GenEnd.rpcError
    | .exhausted => GenEnd.raised .runtimeError
    | .noDeadline => GenEnd.raised .typeError
  let ctxH := match r.1 with
    | [] => r.2.1
    | _ :: _ => ctx
  _do_streaming_response ser r.1 gend ctxH r.2.1

/-- ASCII whitespace stripped by Python's `int()`. -/
def isPyWhitespace (c : Char) : Bool :=
  c.toNat = 32 || c.toNat = 9 || c.toNat = 10 || c.toNat = 13 || c.toNat = 11 || c.toNat = 12

/-- The tail of a Python numeric literal: digits, with single underscores
allowed only between digits. -/
def digitsTail (isDig : Char → Bool) : List Char → Bool
  | [] => true
  | c :: c2 :: rest =>
    if c.toNat = 95 then isDig c2 && digitsTail isDig rest
    else isDig c && digitsTail isDig (c2 :: rest)
  | [c] => isDig c

/-- A nonempty digit group in Python `int()` syntax (no leading or trailing
underscore, no doubled underscore). -/
def digitsWithUnderscores (isDig : Char → Bool) : List Char → Bool
  | [] => false
  | c :: rest => isDig c && digitsTail isDig rest

/-- Numeric value of a validated digit group (base 10), ignoring underscores. -/
def pyIntDigitsVal (cs : List Char) : Nat :=
  (cs.filter (fun c => c.toNat ≠ 95)).foldl (fun a c => a * 10 + (c.toNat - 48)) 0

/-- Python `int(str)`: strip surrounding whitespace, optional sign, then a
digit group; `none` models the `ValueError` on malformed text. -/
def pyInt (s : String) : Option Int :=
  let cs := s.data.dropWhile isPyWhitespace
  let cs := (cs.reverse.dropWhile isPyWhitespace).reverse
  match cs with
  | c :: rest =>
    if c.toNat = 43 then
      if digitsWithUnderscores Char.isDigit rest then some (Int.ofNat (pyIntDigitsVal rest)) else none
    else if c.toNat = 45 then
      if digitsWithUnderscores Char.isDigit rest then some (-(Int.ofNat (pyIntDigitsVal rest))) else none
    else
      if digitsWithUnderscores Char.isDigit cs then some (Int.ofNat (pyIntDigitsVal cs)) else none
  | [] => none

/-- Hexadecimal digit test for Python `int(_, 16)`. -/
def isHexDigitChar (c : Char) : Bool :=
  c.isDigit || (97 ≤ c.toNat && c.toNat ≤ 102) || (65 ≤ c.toNat && c.toNat ≤ 70)

/-- Value of a hexadecimal digit character. -/
def hexDigitVal (c : Char) : Nat :=
  if c.isDigit then c.toNat - 48
  else if 97 ≤ c.toNat then c.toNat - 87
  else c.toNat - 55

/-- The unsigned core of Python `int(_, 16)`: an optional `0x`/`0X` prefix then
a hex digit group. -/
def pyIntHexCore (cs : List Char) : Option Nat :=
  let body := match cs with
    | c :: x :: rest =>
      if c.toNat = 48 ∧ (x.toNat = 120 ∨ x.toNat = 88) then rest else cs
    | _ => cs
  if digitsWithUnderscores isHexDigitChar body then
    some ((body.filter (fun c => c.toNat ≠ 95)).foldl (fun a c => a * 16 + hexDigitVal c) 0)
  else none

/-- Python `int(bytes_value, 16)`: the bytes are read as ASCII characters,
surrounding whitespace is stripped, an optional sign is allowed; the error case
models the `ValueError` on malformed text. -/
def pyIntHexBytes (bs : List Nat) : Except Unit Int :=
  let cs := bs.map Char.ofNat
  let cs := cs.dropWhile isPyWhitespace
  let cs := (cs.reverse.dropWhile isPyWhitespace).reverse
  match cs with
  | c :: rest =>
    if c.toNat = 43 then
      match pyIntHexCore rest with
      | some n => .ok (Int.ofNat n)
      | none => .error ()
    else if c.toNat = 45 then
      match pyIntHexCore rest with
      | some n => .ok (-(Int.ofNat n))
      | none => .error ()
    else
      match pyIntHexCore cs with
      | some n => .ok (Int.ofNat n)
      | none => .error ()
  | [] => .error ()

/-- `stream.readline()`: the bytes up to and including the first newline
(byte 10), or everything left at end of input; also returns the rest. -/
def pyReadline : List Nat → List Nat × List Nat
  | [] => ([], [])
  | b :: rest =>
    if b = 10 then ([10], rest)
    else
      let p := pyReadline rest
      (b :: p.1, p.2)

/-- `stream.read(n)`: at most `n` bytes; a negative count reads to the end. -/
def pyRead (n : Int) (s : List Nat) : List Nat × List Nat :=
  if n < 0 then (s, [])
  else (s.take n.toNat, s.drop n.toNat)

/-- `line.split(b";", 1)[0]`: the bytes before the first `;` (byte 59), or the
whole line when there is none. -/
def bytesBeforeSemicolon (bs : List Nat) : List Nat :=
  bs.takeWhile (fun b => b ≠ 59)

/-- In Python 3 a `bytes` value never compares equal to a `str`, so the
source's `size == "\x0d\x0a"` guard (intended to stop at a bare CRLF terminator
line) can never fire: it is dead code. -/
def pyBytesEqStr (_ : List Nat) (_ : String) : Bool :=
  false

/-- The chunked-transfer loop of `_read_request`: read a size line, take the
part before any `;` extension, (dead) compare it against the CRLF string, parse
it as hex (`ValueError` on malformed text is fatal), stop at a zero-size chunk,
otherwise read `size + 2` bytes and strip the trailing CRLF, accumulating chunk
payloads in order.  The fuel argument only bounds the recursion; each iteration
consumes at least the (nonempty) size line, so `stream length + 1` suffices. -/
def readChunkedGo : Nat → List Nat → List (List Nat) → Except PyError (List Nat)
  | 0, _, _ => .error .runtimeError
  | fuel + 1, stream, buffer =>
    let p := pyReadline stream
    if p.1 = [] then .ok buffer.flatten
    else
      let size := bytesBeforeSemicolon p.1
      if pyBytesEqStr size "\x0d\x0a" then .ok buffer.flatten
      else
        match pyIntHexBytes size with
        | .error _ => .error .valueError
        | .ok chunk_size =>
          if chunk_size = 0 then .ok buffer.flatten
          else
            let q := pyRead (chunk_size + 2) p.2
            readChunkedGo fuel q.2 (buffer ++ [q.1.take (q.1.length - 2)])

/-- The chunked branch of `_read_request`. -/
def readChunked (stream : List Nat) : Except PyError (List Nat) :=
  readChunkedGo (stream.length + 1) stream []

/-- The content-length preamble of `_read_request`: the raw header value is
taken when truthy (the empty string is falsy), parsed with `int()`, and a
`ValueError` is caught and turned into `None`. -/
def parseContentLength (h : Option String) : Option Int :=
  match h with
  | none => none
  | some s => if s = "" then none else pyInt s

/-- The byte count passed to `stream.read` on the non-chunked path:
`content_length or 5` — `None` and `0` are both falsy in Python, so both fall
back to the fixed minimal read of 5 bytes (one frame header). -/
def _read_request_count (cl : Option Int) : Int :=
  match cl with
  | some n => if n = 0 then 5 else n
  | none => 5

/-- `_read_request`: parse the declared content length (parse failure caught),
then either reassemble a chunked body or read `content_length or 5` bytes. -/
def _read_request (contentLengthHeader : Option String) (transferEncoding : Option String)
    (stream : List Nat) : Except PyError (List Nat) :=
  let content_length := parseContentLength contentLengthHeader
  if transferEncoding = some "chunked" then readChunked stream
  else .ok (pyRead (_read_request_count content_length) stream).1

/-- Dictionary lookup in the WSGI environ (modelled as an association list). -/
def envLookup (environ : List (String × String)) (key : String) : Option String :=
  match environ.find? (fun kv => kv.1 == key) with
  | some kv => some kv.2
  | none => none

/-- The metadata loop of `_create_context`: every `HTTP_`-prefixed environ key
is lowercased with underscores turned into dashes after the prefix is stripped;
values of `-bin` headers are base64-decoded (a decode failure — `binascii.Error`
— is not caught and aborts context creation). -/
def extractMetadata : List (String × String) → Except PyError (List (String × MetaValue))
  | [] => .ok []
  | (k, v) :: rest =>
    if pyStartsWith k "HTTP_" then
      let header := pyReplaceUnderscore (pyLower (pyDrop k 5))
      if pyEndsWith header "-bin" then
        match b64decode v with
        | .ok bs => (extractMetadata rest).map (fun tail => (header, MetaValue.bin bs) :: tail)
        | .error _ => .error .binasciiError
      else (extractMetadata rest).map (fun tail => (header, MetaValue.text v) :: tail)
    else extractMetadata rest

/-- `_create_context`: `parse_timeout(environ["HTTP_GRPC_TIMEOUT"])` with only
`KeyError` (an absent header) caught — the ValueError-equivalent raised by
`parse_timeout` on a malformed header propagates out — then the metadata loop,
then `ServicerContext(timeout, metadata)` at the current monotonic time. -/
def _create_context (environ : List (String × String)) (now : Nat) :
    Except PyError ServicerContext :=
  let timeoutStep : Except PyError (Option Nat) :=
    match envLookup environ "HTTP_GRPC_TIMEOUT" with
    | none => .ok none
    | some v =>
      match parse_timeout v with
      | .ok t => .ok (some t)
      | .error _ => .error .valueError
  do
    let t ← timeoutStep
    let md ← extractMetadata environ
    .ok (ServicerContext.init t md now)

/-! ## Helper definitions for the theorems and their concrete witnesses -/

/-- A freshly created context with no deadline and no inbound metadata. -/
def ctxDefault : ServicerContext :=
  ServicerContext.init none [] 0

/-- A context whose handler set nonempty trailing metadata. -/
def ctxTrailing : ServicerContext :=
  { ctxDefault with trailing_metadata := some [("x-extra", "1")] }

/-- The context state `_timeout_generator` leaves behind on deadline expiry. -/
def ctxDE (ctx : ServicerContext) : ServicerContext :=
  { ctx with code := .deadline_exceeded, details := some "request timed out at the server" }

/-- A context created with a 100ns timeout at monotonic time 0. -/
def ctxTimed : ServicerContext :=
  ServicerContext.init (some 100) [] 0

/-- A context created with a 5ns timeout at monotonic time 0. -/
def ctxShortDeadline : ServicerContext :=
  ServicerContext.init (some 5) [] 0

/-- A context on which the handler called `abort(INVALID_ARGUMENT, ...)`. -/
def ctxAborted : ServicerContext :=
  (ServicerContext.abort ctxDefault .invalid_argument "bad argument").1

/-- A clock whose remaining time is positive at the first check and exhausted
at the second. -/
def clockW : Nat → Nat :=
  fun i => if i = 0 then 0 else 100

/-- The status-code-to-HTTP-status table exactly as the specification words it:
OK and absent code map to 200, UNKNOWN/INTERNAL to 500, UNAVAILABLE to 503,
INVALID_ARGUMENT to 400, UNIMPLEMENTED to 404, PERMISSION_DENIED to 403, every
other code to 500. -/
def statusTableSpec : Option StatusCode → String
  | some .ok => "200 OK"
  | none => "200 OK"
  | some .unknown => "500 Internal Server Error"
  | some .internal => "500 Internal Server Error"
  | some .unavailable => "503 Service Unavailable"
  | some .invalid_argument => "400 Bad Request"
  | some .unimplemented => "404 Not Found"
  | some .permission_denied => "403 Forbidden"
  | some _ => "500 Internal Server Error"

/-- `_timeout_generator_go` yields exactly the values pulled while the deadline
had not passed: if the clock is strictly before the deadline at the first `k`
checks and at or past it at check `k`, the run stops with the `deadline`
outcome after yielding exactly the first `k` values. -/
theorem timeout_go_take {α : Type} (ctx : ServicerContext) (nowAt : Nat → Nat) (d : Nat)
    (hd : ctx.deadline = some d) :
    ∀ (k i : Nat) (vals : List α), k ≤ vals.length →
      (∀ j, j < k → nowAt (i + j) < d) → d ≤ nowAt (i + k) →
      _timeout_generator_go ctx nowAt i vals = (vals.take k, .deadline) := by
  intro k
  induction k with
  | zero =>
    intro i vals _ _ hat
    have hr : ctx.time_remaining (nowAt i) = some (d - nowAt i) := by
      simp [ServicerContext.time_remaining, hd]
    have h0 : d - nowAt i = 0 := Nat.sub_eq_zero_of_le (by simpa using hat)
    cases vals with
    | nil => simp [_timeout_generator_go, hr, h0]
    | cons v rest => simp [_timeout_generator_go, hr, h0]
  | succ k ih =>
    intro i vals hk hbefore hat
    cases vals with
    | nil => simp at hk
    | cons v rest =>
      have hi : nowAt i < d := by
        have := hbefore 0 (Nat.succ_pos k)
        simpa using this
      have hr : ctx.time_remaining (nowAt i) = some (d - nowAt i) := by
        simp [ServicerContext.time_remaining, hd]
      have hpos : 0 < d - nowAt i := by omega
      have hrec : _timeout_generator_go ctx nowAt (i + 1) rest = (rest.take k, .deadline) := by
        refine ih (i + 1) rest (by simpa using hk) ?_ ?_
        · intro j hj
          have := hbefore (j + 1) (Nat.succ_lt_succ hj)
          rwa [show i + (j + 1) = i + 1 + j by omega] at this
        · rwa [show i + (k + 1) = i + 1 + k by omega] at hat
      simp [_timeout_generator_go, hr, hrec, hpos]

/-! ## The claims -/

/-- C1: for a unary call whose handler returned a value without aborting (the
context still holds the default OK code), the body is exactly one message Frame
wrapping the serialized return value followed by one trailer segment — the
trailer Frame is present exactly when trailing metadata was set on the context
(to a nonempty sequence; Python truthiness treats metadata set to an empty list
like unset metadata) and is the empty segment otherwise — the headers include
`grpc-status: 0`, and the `content-length` header equals the exact total byte
length of the emitted body (message bytes plus trailer bytes). -/
theorem c1_unary_response {α : Type} (ser : α → List Nat) (m : α) (ctx : ServicerContext)
    (hc : ctx.code = .ok) :
    (_do_unary_response ser ctx (some m)).bodyChunks
        = [wrap_message false false (ser m), unaryTrailerData ctx]
    ∧ (unaryTrailerData ctx ≠ [] ↔ pyTruthyOptList ctx.trailing_metadata = true)
    ∧ ("grpc-status", "0") ∈ (_do_unary_response ser ctx (some m)).headers
    ∧ ("content-length",
        toString ((wrap_message false false (ser m)).length + (unaryTrailerData ctx).length))
        ∈ (_do_unary_response ser ctx (some m)).headers := by
  refine ⟨rfl, ?_, ?_, ?_⟩
  · rcases htm : ctx.trailing_metadata with _ | l
    · simp [unaryTrailerData, pyTruthyOptList, htm]
    · rcases l with _ | ⟨kv, rest⟩
      · simp [unaryTrailerData, pyTruthyOptList, htm]
      · simp [unaryTrailerData, pyTruthyOptList, htm, wrap_message]
  · have h0 : toString ctx.code.value = "0" := by rw [hc]; rfl
    simp [_do_unary_response, h0]
  · simp [_do_unary_response, unaryMessageData]

/-- Witness for C1 at a concrete serialized value and a context carrying
trailing metadata. -/
theorem c1_unary_response_witness :
    (_do_unary_response id ctxTrailing (some [7, 8])).bodyChunks
        = [wrap_message false false [7, 8], unaryTrailerData ctxTrailing]
    ∧ (unaryTrailerData ctxTrailing ≠ [] ↔ pyTruthyOptList ctxTrailing.trailing_metadata = true)
    ∧ ("grpc-status", "0") ∈ (_do_unary_response id ctxTrailing (some [7, 8])).headers
    ∧ ("content-length",
        toString ((wrap_message false false ([7, 8] : List Nat)).length
          + (unaryTrailerData ctxTrailing).length))
        ∈ (_do_unary_response id ctxTrailing (some [7, 8])).headers :=
  c1_unary_response id [7, 8] ctxTrailing rfl

/-- C2: a server-streaming call whose handler yields `n ≥ 1` values and then
completes normally (no deadline set, so the iterator is used unwrapped and its
normal exhaustion ends the `for` loop) produces exactly the `n` message Frames
in yield order followed by exactly one trailer Frame, without any exception
escaping, and the trailer lines are `grpc-status` (`0` for the successful
stream), then `grpc-message` (percent-encoded) exactly when details are
present, then the trailing metadata entries, in that order. -/
theorem c2_streaming_response {α : Type} (ser : α → List Nat) (v : α) (rest : List α)
    (ctxH ctxT : ServicerContext) (hc : ctxT.code = .ok) :
    (_do_streaming_response ser (v :: rest) .stopIteration ctxH ctxT).map
        StreamingResult.bodyChunks
      = .ok ((v :: rest).map (fun m => wrap_message false false (ser m))
          ++ [wrap_message true false (pack_trailers (streamTrailerLines ctxT))])
    ∧ (_do_streaming_response ser (v :: rest) .stopIteration ctxH ctxT).map
        StreamingResult.bodyError
      = .ok none
    ∧ streamTrailerLines ctxT
      = ("grpc-status", "0")
        :: ((match ctxT.details with
             | some d => if d = "" then [] else [("grpc-message", quote d)]
             | none => [])
            ++ (match ctxT.trailing_metadata with
                | some (kv :: r) => encode_headers (kv :: r)
                | _ => [])) := by
  refine ⟨rfl, rfl, ?_⟩
  have h0 : toString ctxT.code.value = "0" := by rw [hc]; rfl
  simp [streamTrailerLines, h0]

/-- Witness for C2: three yielded values and a default (OK, no metadata)
context. -/
theorem c2_streaming_response_witness :
    (_do_streaming_response id [[1], [2], [3]] .stopIteration ctxDefault ctxDefault).map
        StreamingResult.bodyChunks
      = .ok ([[1], [2], [3]].map (fun m => wrap_message false false (id m))
          ++ [wrap_message true false (pack_trailers (streamTrailerLines ctxDefault))])
    ∧ (_do_streaming_response id [[1], [2], [3]] .stopIteration ctxDefault ctxDefault).map
        StreamingResult.bodyError
      = .ok none
    ∧ streamTrailerLines ctxDefault = ("grpc-status", "0") :: ([] ++ []) :=
  c2_streaming_response id [1] [[2], [3]] ctxDefault ctxDefault rfl

/-- C3 (amended): with a deadline set, a deadline check runs before each pull;
if the clock is strictly before the deadline at the first `k ≥ 1` checks and
the remaining time has reached zero at check `k`, the stream stops after
exactly the first `k` values (none of the later values is emitted), the context
is set to DEADLINE_EXCEEDED with details "request timed out at the server",
and the body is those `k` message Frames followed by one trailer Frame whose
lines carry `grpc-status: 4` and the percent-encoded `grpc-message`.  The
amendment restricts the claim to expiry after at least one successful pull:
when the deadline is already expired at the first pull the source crashes on an
unassigned `first_message` instead of emitting a trailer (see the
counterexample). -/
theorem c3_deadline_streaming (ctx : ServicerContext) (d : Nat) (nowAt : Nat → Nat)
    (vals : List (List Nat)) (k : Nat)
    (hd : ctx.deadline = some d) (hk : k ≤ vals.length) (hk1 : 1 ≤ k)
    (hbefore : ∀ j, j < k → nowAt j < d) (hat : d ≤ nowAt k) :
    _timeout_generator ctx nowAt vals = (vals.take k, ctxDE ctx, .deadline)
    ∧ (_do_streaming_with_timeout id ctx nowAt vals).map StreamingResult.bodyChunks
        = .ok ((vals.take k).map (fun m => wrap_message false false m)
            ++ [wrap_message true false (pack_trailers (streamTrailerLines (ctxDE ctx)))])
    ∧ (_do_streaming_with_timeout id ctx nowAt vals).map StreamingResult.bodyError = .ok none
    ∧ ("grpc-status", "4") ∈ streamTrailerLines (ctxDE ctx)
    ∧ ("grpc-message", quote "request timed out at the server")
        ∈ streamTrailerLines (ctxDE ctx) := by
  have hgo : _timeout_generator_go ctx nowAt 0 vals = (vals.take k, .deadline) := by
    refine timeout_go_take ctx nowAt d hd k 0 vals hk ?_ ?_
    · intro j hj
      simpa using hbefore j hj
    · simpa using hat
  have h1 : _timeout_generator ctx nowAt vals = (vals.take k, ctxDE ctx, .deadline) := by
    simp [_timeout_generator, hgo, ctxDE]
  have hne : vals.take k ≠ [] := by
    intro h
    have h2 := congrArg List.length h
    rw [List.length_take, List.length_nil] at h2
    omega
  obtain ⟨v, rest, hvr⟩ := List.exists_cons_of_ne_nil hne
  refine ⟨h1, ?_, ?_, ?_, ?_⟩
  · simp [_do_streaming_with_timeout, h1, hvr, _do_streaming_response, Except.map]
  · simp [_do_streaming_with_timeout, h1, hvr, _do_streaming_response, Except.map]
  · have h4 : toString (4 : Nat) = "4" := rfl
    simp [streamTrailerLines, ctxDE, StatusCode.value, h4]
  · have hne' : ("request timed out at the server" : String) ≠ "" := by decide
    simp [streamTrailerLines, ctxDE, if_neg hne']

/-- Witness for C3 at a concrete 100ns deadline hit at the second check. -/
theorem c3_deadline_streaming_witness :
    _timeout_generator ctxTimed clockW [[1], [2]] = ([[1]], ctxDE ctxTimed, .deadline)
    ∧ (_do_streaming_with_timeout id ctxTimed clockW [[1], [2]]).map StreamingResult.bodyError
        = .ok none
    ∧ ("grpc-status", "4") ∈ streamTrailerLines (ctxDE ctxTimed) := by
  have h := c3_deadline_streaming ctxTimed 100 clockW [[1], [2]] 1 rfl (by decide) (by decide)
    (by
      intro j hj
      have hj0 : j = 0 := Nat.lt_one_iff.mp hj
      subst hj0
      decide)
    (by decide)
  exact ⟨h.1, h.2.2.1, h.2.2.2.1⟩

/-- Counterexample for C3 as stated: when the remaining time has already
reached zero at the very first pull, `_timeout_generator` raises before any
value is yielded, the caught signal leaves `first_message` unassigned, and the
response crashes with an `UnboundLocalError` after the headers — no trailer
Frame carries the DEADLINE_EXCEEDED status, contradicting the unrestricted
claim. -/
theorem c3_counterexample :
    _timeout_generator ctxShortDeadline (fun _ => 10) [[1]]
      = ([], ctxDE ctxShortDeadline, .deadline)
    ∧ (_do_streaming_with_timeout id ctxShortDeadline (fun _ => 10) [[1]]).map
        StreamingResult.bodyChunks = .ok []
    ∧ (_do_streaming_with_timeout id ctxShortDeadline (fun _ => 10) [[1]]).map
        StreamingResult.bodyError = .ok (some .unboundLocal) :=
  ⟨by decide, by decide, by decide⟩

/-- C4: `abort(code, details)` raises ValueError when `code` is the OK status
code, leaving the context's code and details fields unchanged; for every other
code it sets the context's code and details and raises the call-aborted
`grpc.RpcError` — by construction of the model it never returns normally. -/
theorem c4_abort (ctx : ServicerContext) (code : StatusCode) (details : String) :
    (code = .ok → ServicerContext.abort ctx code details = (ctx, .valueError))
    ∧ (code ≠ .ok →
        ServicerContext.abort ctx code details
          = ({ ctx with code := code, details := some details }, .rpcError)) := by
  constructor
  · intro h
    simp [ServicerContext.abort, h]
  · intro h
    simp [ServicerContext.abort, ServicerContext.set_code, ServicerContext.set_details, h]

/-- Witness for C4: both the OK and a non-OK abort at concrete inputs. -/
theorem c4_abort_witness :
    ServicerContext.abort ctxDefault .ok "boom" = (ctxDefault, .valueError)
    ∧ ServicerContext.abort ctxDefault .internal "boom"
        = ({ ctxDefault with code := .internal, details := some "boom" }, .rpcError) :=
  ⟨(c4_abort ctxDefault .ok "boom").1 rfl,
   (c4_abort ctxDefault .internal "boom").2 (by decide)⟩

/-- C5 (amended): an absent `grpc-timeout` header (the only case the source's
`except KeyError` covers) yields a context with no deadline; a present but
malformed header is not tolerated — the ValueError-equivalent raised by
`parse_timeout` propagates out of `_create_context` and the call fails, rather
than being treated as "no deadline". -/
theorem c5_timeout_header (environ : List (String × String)) (now : Nat) :
    (∀ md, envLookup environ "HTTP_GRPC_TIMEOUT" = none →
        extractMetadata environ = .ok md →
        _create_context environ now = .ok (ServicerContext.init none md now)
        ∧ (ServicerContext.init none md now).deadline = none)
    ∧ (∀ v, envLookup environ "HTTP_GRPC_TIMEOUT" = some v →
        parse_timeout v = .error () →
        _create_context environ now = .error .valueError) := by
  constructor
  · intro md h1 h2
    constructor
    · simp [_create_context, h1, h2, Bind.bind, Except.bind]
    · rfl
  · intro v h1 h2
    simp [_create_context, h1, h2, Bind.bind, Except.bind]

/-- Witness for C5: a concrete environ without the timeout header and one with
a malformed timeout header. -/
theorem c5_timeout_header_witness :
    (_create_context [("HTTP_X", "y")] 3 = .ok (ServicerContext.init none [("x", .text "y")] 3)
      ∧ (ServicerContext.init none [("x", MetaValue.text "y")] 3).deadline = none)
    ∧ _create_context [("HTTP_GRPC_TIMEOUT", "abc")] 0 = .error .valueError :=
  ⟨(c5_timeout_header [("HTTP_X", "y")] 3).1 [("x", .text "y")] (by decide) (by decide),
   (c5_timeout_header [("HTTP_GRPC_TIMEOUT", "abc")] 0).2 "abc" (by decide) (by decide)⟩

/-- Counterexample for C5 as stated: a request carrying the malformed timeout
header `abc` makes context creation fail with the uncaught ValueError instead
of producing a context with no deadline. -/
theorem c5_counterexample :
    _create_context [("HTTP_GRPC_TIMEOUT", "abc")] 0 = .error .valueError := by
  decide

/-- C6 (evaluation at the failing input): when the streaming handler aborts
before yielding any value, the source catches the `grpc.RpcError`, emits
headers, and then evaluates `response_serializer(first_message)` with
`first_message` never assigned — an `UnboundLocalError` escapes to the
transport during body production and no trailer Frame is emitted, contradicting
the claim that the terminal status is carried by the single trailer Frame with
no other exception escaping. -/
theorem c6_abort_before_first_yield :
    _do_streaming_response id ([] : List (List Nat)) .rpcError ctxAborted ctxAborted
      = .ok { status := "400 Bad Request"
              headers := baseHeaders
              bodyChunks := []
              bodyError := some .unboundLocal } := by
  decide

/-- C7: the status-code-to-HTTP-status mapping agrees with the fixed table of
the specification on every input, the absent code included. -/
theorem c7_status_table :
    ∀ code : Option StatusCode, _grpc_status_to_wsgi_status code = statusTableSpec code := by
  intro code
  rcases code with _ | c
  · rfl
  · cases c <;> rfl

/-- C8 (amended): on the non-chunked path the reader passes `content_length or
5` to `stream.read`: it reads exactly the declared byte count when the header
parses to a nonzero integer, and falls back to the fixed 5-byte read (one frame
header) when the header is absent, empty, unparseable — or parses to zero,
since `0` is falsy in Python (the amendment the counterexample forces). -/
theorem c8_nonchunked_read (stream : List Nat) :
    (∀ s n, pyInt s = some n → s ≠ "" → n ≠ 0 →
        _read_request (some s) none stream = .ok (pyRead n stream).1)
    ∧ _read_request none none stream = .ok (stream.take 5)
    ∧ (∀ s, pyInt s = none → _read_request (some s) none stream = .ok (stream.take 5))
    ∧ (∀ s, pyInt s = some 0 → s ≠ "" →
        _read_request (some s) none stream = .ok (stream.take 5)) := by
  refine ⟨?_, ?_, ?_, ?_⟩
  · intro s n hn hs h0
    simp [_read_request, parseContentLength, _read_request_count, hn, hs, h0]
  · simp [_read_request, parseContentLength, _read_request_count, pyRead]
  · intro s hn
    by_cases hs : s = ""
    · subst hs
      simp [_read_request, parseContentLength, _read_request_count, pyRead]
    · simp [_read_request, parseContentLength, _read_request_count, hn, hs, pyRead]
  · intro s h0 hs
    simp [_read_request, parseContentLength, _read_request_count, h0, hs, pyRead]

/-- Witness for C8 at concrete headers and a 7-byte stream. -/
theorem c8_nonchunked_read_witness :
    _read_request (some "3") none [1, 2, 3, 4, 5, 6, 7] = .ok (pyRead 3 [1, 2, 3, 4, 5, 6, 7]).1
    ∧ _read_request none none [1, 2, 3, 4, 5, 6, 7] = .ok ([1, 2, 3, 4, 5, 6, 7].take 5)
    ∧ _read_request (some "xy") none [1, 2, 3, 4, 5, 6, 7] = .ok ([1, 2, 3, 4, 5, 6, 7].take 5) :=
  ⟨(c8_nonchunked_read [1, 2, 3, 4, 5, 6, 7]).1 "3" 3 (by decide) (by decide) (by decide),
   (c8_nonchunked_read [1, 2, 3, 4, 5, 6, 7]).2.1,
   (c8_nonchunked_read [1, 2, 3, 4, 5, 6, 7]).2.2.1 "xy" (by decide)⟩

/-- Counterexample for C8 as stated: `Content-Length: 0` is declared and
parseable, yet 5 bytes are read rather than 0, because `content_length or 5`
treats the parsed 0 as falsy. -/
theorem c8_counterexample :
    pyInt "0" = some 0
    ∧ _read_request (some "0") none [1, 2, 3, 4, 5, 6, 7] = .ok [1, 2, 3, 4, 5] :=
  ⟨by decide, by decide⟩

/-- C9 (evaluation at the failing input): the chunked body `5 CRLF hello CRLF`
then `0 CRLF CRLF` reassembles to exactly `hello`, and a malformed (non-hex)
size line is a fatal ValueError — but a bare CRLF terminator line is also a
fatal ValueError instead of a graceful stop, because the source's terminator
check compares `bytes` against `str` (always false in Python 3, dead code), so
`int(b"CRLF", 16)` raises. -/
theorem c9_chunked_read :
    _read_request none (some "chunked") (strBytes "5\x0d\x0ahello\x0d\x0a0\x0d\x0a\x0d\x0a")
      = .ok (strBytes "hello")
    ∧ _read_request none (some "chunked") [13, 10] = .error .valueError
    ∧ _read_request none (some "chunked") (strBytes "zz\x0d\x0a") = .error .valueError :=
  ⟨by decide, by decide, by decide⟩

/-- C10: every call to `abort` or `abort_with_status` ends in a raise —
ValueError exactly when the argument equals the OK status code, the
call-aborted `grpc.RpcError` in every other case — so a handler invoking
either never resumes past the call. -/
theorem c10_abort_always_raises (ctx : ServicerContext) (code : StatusCode) (details : String) :
    ((ServicerContext.abort ctx code details).2 = .valueError ↔ code = .ok)
    ∧ ((ServicerContext.abort ctx code details).2 = .rpcError ↔ code ≠ .ok)
    ∧ ((ServicerContext.abort_with_status ctx code).2 = .valueError ↔ code = .ok)
    ∧ ((ServicerContext.abort_with_status ctx code).2 = .rpcError ↔ code ≠ .ok) := by
  by_cases h : code = .ok <;>
    simp [ServicerContext.abort, ServicerContext.abort_with_status, h]

end Sonora
